import Mathlib

/-!
Verification of the MusicBrainz metadata mapper (`beets/autotag/mb.py`) and
the cover-art plugin (`beetsplug/embedart.py`), via a shallow embedding of the
Python source into Lean.  Raw nested dictionaries returned by the remote API
are modelled as structures whose `Option` fields stand for optional dictionary
keys; Python `None`-or-missing distinctions that the source never observes are
collapsed.  Python ints are modelled as `Int`; the float track length
`ms / 1000.0` is modelled by the exact millisecond integer (an injective
renaming, adequate because no claim concerns float arithmetic).
-/

namespace MB

/-- Configuration values read from the host application's config store
(`config[...]` accesses in `mb.py`). -/
structure Config where
  languages : List String
  ignoredAliasTypes : List String
  preferredCountries : List String
  ignoredMedia : List String
  ignoreDataTracks : Bool
  ignoreVideoTracks : Bool
  genres : Bool
  vaName : String
  deriving Repr, DecidableEq

/-- An alias structure: `locale` is the optional `'locale'` key, `primary`
models the presence of the `'primary'` key, `type` the optional `'type'` key;
`aliasName` and `sortName` are the `'alias'` / `'sort-name'` values
(`aliasName` because `alias` is reserved in Lean). -/
structure Alias where
  locale : Option String
  primary : Bool
  type : Option String
  aliasName : String
  sortName : String
  deriving Repr, DecidableEq

/-- An artist object inside a credit element: `'name'`, optional
`'sort-name'`, `'id'`, and `'alias-list'` (default `()`). -/
structure Artist where
  name : String
  sortName : Option String
  id : String
  aliasList : List Alias
  deriving Repr, DecidableEq

/-- One element of an `artist-credit` list: either a literal join phrase
string or an artist appearance (optional per-appearance `'name'` override
plus the `'artist'` object). -/
inductive CreditElem where
  | phrase (s : String)
  | artist (name : Option String) (artist : Artist)
  deriving Repr, DecidableEq

/-- The artist object inside a relation (`relation['artist']`): only
`'name'` and `'sort-name'` are read by the source. -/
structure RArtist where
  name : String
  sortName : String
  deriving Repr, DecidableEq

/-- An entry of an `artist-relation-list`: optional `'type'` plus the
related artist. -/
structure ArtistRelation where
  type : Option String
  artist : RArtist
  deriving Repr, DecidableEq

/-- A work object inside a work relation. -/
structure Work where
  title : String
  id : String
  disambiguation : Option String
  artistRelationList : List ArtistRelation
  deriving Repr, DecidableEq

/-- An entry of a recording's `work-relation-list`. -/
structure WorkRelation where
  type : String
  work : Work
  deriving Repr, DecidableEq

/-- A recording dictionary.  `length` is the millisecond value
(`int(recording['length'])`); `video` is the optional `'video'` key. -/
structure Recording where
  title : String
  id : String
  artistCredit : List CreditElem
  artistRelationList : List ArtistRelation
  length : Option Int
  disambiguation : Option String
  isrcList : List String
  video : Option String
  workRelationList : List WorkRelation
  deriving Repr, DecidableEq

/-- A track dictionary inside a medium's `track-list` (or data-track /
pregap slots).  `title`, `artistCredit`, `length` are the optional
release-level overrides for the embedded recording's data. -/
structure Track where
  recording : Recording
  id : String
  position : Int
  number : String
  title : Option String
  artistCredit : List CreditElem
  length : Option Int
  deriving Repr, DecidableEq

/-- A medium dictionary.  `dataTrackList = some l` models presence of the
`'data-track-list'` key; `pregap` presence of `'pregap'`. -/
structure Medium where
  title : Option String
  format : Option String
  position : Int
  trackList : List Track
  dataTrackList : Option (List Track)
  pregap : Option Track
  deriving Repr, DecidableEq

/-- A genre tag-count pair (`genreitem['name']`, `int(genreitem['count'])`). -/
structure GenreItem where
  name : String
  count : Int
  deriving Repr, DecidableEq

/-- A release event.  `areaCodes = some l` models
`event['area']['iso-3166-1-code-list']` being reachable (both keys present);
`date` the optional `'date'` key. -/
structure ReleaseEvent where
  areaCodes : Option (List String)
  date : Option String
  deriving Repr, DecidableEq

/-- The label object inside a label-info entry. -/
structure LabelObj where
  name : String
  deriving Repr, DecidableEq

/-- An entry of `label-info-list`. -/
structure LabelInfo where
  label : Option LabelObj
  catalogNumber : Option String
  deriving Repr, DecidableEq

/-- The `text-representation` block. -/
structure TextRepresentation where
  script : Option String
  language : Option String
  deriving Repr, DecidableEq

/-- The `release-group` object. -/
structure ReleaseGroup where
  id : String
  disambiguation : Option String
  type : Option String
  primaryType : Option String
  secondaryTypeList : Option (List String)
  firstReleaseDate : Option String
  genreList : List GenreItem
  deriving Repr, DecidableEq

/-- A release dictionary as consumed by `album_info`. -/
structure Release where
  title : String
  id : String
  artistCredit : List CreditElem
  mediumList : List Medium
  releaseGroup : ReleaseGroup
  asin : Option String
  status : Option String
  disambiguation : Option String
  releaseEventList : List ReleaseEvent
  country : Option String
  date : Option String
  labelInfoList : List LabelInfo
  textRepresentation : Option TextRepresentation
  genreList : List GenreItem
  deriving Repr, DecidableEq

/-- The canonical track record (`beets.autotag.hooks.TrackInfo`).  Fields the
mapper may leave unset are `Option`; `length` holds the millisecond integer. -/
structure TrackInfo where
  title : String
  track_id : String
  index : Option Int
  medium : Option Int
  medium_index : Option Int
  medium_total : Option Int
  data_source : String
  data_url : String
  artist : Option String
  artist_sort : Option String
  artist_credit : Option String
  artist_id : Option String
  remixer : Option String
  length : Option Int
  trackdisambig : Option String
  isrc : Option String
  work : Option String
  mb_workid : Option String
  work_disambig : Option String
  lyricist : Option String
  composer : Option String
  composer_sort : Option String
  arranger : Option String
  release_track_id : Option String
  disctitle : Option String
  media : Option String
  track_alt : Option String
  deriving Repr, DecidableEq

/-- The canonical album record (`beets.autotag.hooks.AlbumInfo`). -/
structure AlbumInfo where
  album : String
  album_id : String
  artist : String
  artist_id : String
  tracks : List TrackInfo
  mediums : Int
  artist_sort : String
  artist_credit : String
  data_source : String
  data_url : String
  va : Bool
  asin : Option String
  releasegroup_id : String
  albumstatus : Option String
  releasegroupdisambig : Option String
  albumdisambig : Option String
  albumtype : Option String
  albumtypes : List String
  country : Option String
  year : Option Int
  month : Option Int
  day : Option Int
  original_year : Option Int
  original_month : Option Int
  original_day : Option Int
  label : Option String
  catalognum : Option String
  script : Option String
  language : Option String
  media : Option String
  genre : Option String
  deriving Repr, DecidableEq

def VARIOUS_ARTISTS_ID : String := "89ad4ac3-39f7-470e-963a-56509c546377"

def BASE_URL : String := "https://musicbrainz.org/"

def SKIPPED_TRACKS : List String := ["[data track]"]

def BROWSE_CHUNKSIZE : Nat := 100

def BROWSE_MAXTRACKS : Nat := 500

/-- `urljoin(BASE_URL, 'recording/' + trackid)`. -/
def track_url (trackid : String) : String := BASE_URL ++ "recording/" ++ trackid

/-- `urljoin(BASE_URL, 'release/' + albumid)`. -/
def album_url (albumid : String) : String := BASE_URL ++ "release/" ++ albumid

/-- The head of an artist-credit list when it is an artist element; `none`
models the Python crash (`IndexError`/`TypeError`) on
`credit[0]['artist']`. -/
def headCreditArtist : List CreditElem → Option Artist
  | CreditElem.artist _ a :: _ => some a
  | _ => none

/-- Whether an alias matches one preferred locale: locale equal, marked
primary (`'primary' in a`), type (lower-cased) not in the (lower-cased)
ignored list. -/
def aliasMatches (ignored : List String) (locale : String) (a : Alias) : Bool :=
  decide (a.locale = some locale) && a.primary &&
    !(ignored.contains (a.type.getD "").toLower)

/-- Inner loop of `_preferred_alias`: search configured locales in order,
returning the first matching primary, non-ignored alias of the first locale
that yields any match. -/
def localeLoop (ignored : List String) : List String → List Alias → Option Alias
  | [], _ => none
  | locale :: rest, aliases =>
    let found := aliases.filter (aliasMatches ignored locale)
    match found with
    | [] => localeLoop ignored rest aliases
    | m :: _ => some m

/-- `_preferred_alias`: select the user's preferred alias, or `none`. -/
def preferred_alias (cfg : Config) (aliases : List Alias) : Option Alias :=
  if aliases.isEmpty then none
  else
    let aliases := aliases.filter fun a => a.locale.isSome
    let ignored := cfg.ignoredAliasTypes.map String.toLower
    localeLoop ignored cfg.languages aliases

/-- Spec-side alias resolver, phrased from the spec's words: "for each
preferred locale in order, collect aliases matching that locale that are
marked primary and whose type is not ignored; return the first match of the
first locale that yields any match; return no preference if no locale yields
a match", considering only aliases carrying a locale tag. -/
def preferredAliasSpec (cfg : Config) (aliases : List Alias) : Option Alias :=
  cfg.languages.findSome? fun locale =>
    ((aliases.filter fun a => a.locale.isSome).filter
      (aliasMatches (cfg.ignoredAliasTypes.map String.toLower) locale)).head?

/-- One release event matched against a preferred country: succeeds when the
area code list is reachable, contains the country, and the event's date is
present (a missing `'date'` raises `KeyError` inside the same `try`, which
is swallowed and scanning continues). -/
def eventMatch (country : String) (e : ReleaseEvent) : Option String :=
  match e.areaCodes with
  | some codes => if codes.contains country then e.date else none
  | none => none

/-- The scan of `_preferred_release_event` over countries and events. -/
def findEvent : List String → List ReleaseEvent → Option (String × String)
  | [], _ => none
  | c :: cs, events =>
    match events.findSome? (eventMatch c) with
    | some d => some (c, d)
    | none => findEvent cs events

/-- `_preferred_release_event`: the user's preferred release event as
(country, date), falling back to the release's own fields. -/
def preferred_release_event (cfg : Config) (release : Release) :
    Option String × Option String :=
  match findEvent cfg.preferredCountries release.releaseEventList with
  | some (c, d) => (some c, some d)
  | none => (release.country, release.date)

/-- `_flatten_artist_credit`: flatten an artist-credit list into
(name, sort-name, credit-name), concatenating parts in sequence order. -/
def flatten_artist_credit (cfg : Config) (credit : List CreditElem) :
    String × String × String :=
  credit.foldl
    (fun acc el =>
      match el with
      | CreditElem.phrase s => (acc.1 ++ s, acc.2.1 ++ s, acc.2.2 ++ s)
      | CreditElem.artist nameOverride ar =>
        let al := preferred_alias cfg ar.aliasList
        let curArtistName :=
          match al with
          | some a => a.aliasName
          | none => ar.name
        let sortPart :=
          match al with
          | some a => a.sortName
          | none =>
            match ar.sortName with
            | some sn => sn
            | none => curArtistName
        let creditPart :=
          match nameOverride with
          | some n => n
          | none => curArtistName
        (acc.1 ++ curArtistName, acc.2.1 ++ sortPart, acc.2.2 ++ creditPart))
    ("", "", "")

/-- `_get_related_artist_names`: names of related artists whose relation
type equals `relationType`, joined with ", ". -/
def get_related_artist_names (relations : List ArtistRelation)
    (relationType : String) : String :=
  String.intercalate ", "
    ((relations.filter fun r => r.type = some relationType).map
      fun r => r.artist.name)

/-- The work-relation loop of `track_info`: walks the recording's
`work-relation-list`; every `performance` relation overwrites the
work / work-id slots (and the disambiguation slot, when present) and appends
to the lyricist / composer / composer-sort accumulators.  The accumulator is
((work, mb_workid, work_disambig), lyricist, composer, composer_sort). -/
def workLoop
    (acc : (Option String × Option String × Option String) ×
      List String × List String × List String) :
    List WorkRelation →
      (Option String × Option String × Option String) ×
        List String × List String × List String
  | [] => acc
  | wr :: rest =>
    if wr.type ≠ "performance" then workLoop acc rest
    else
      let w : Option String × Option String × Option String :=
        (some wr.work.title, some wr.work.id,
          match wr.work.disambiguation with
          | some d => some d
          | none => acc.1.2.2)
      let inner := wr.work.artistRelationList.foldl
        (fun (a : List String × List String × List String) ar =>
          match ar.type with
          | some t =>
            if t = "lyricist" then (a.1 ++ [ar.artist.name], a.2.1, a.2.2)
            else if t = "composer" then
              (a.1, a.2.1 ++ [ar.artist.name], a.2.2 ++ [ar.artist.sortName])
            else a
          | none => a)
        (acc.2.1, acc.2.2.1, acc.2.2.2)
      workLoop (w, inner) rest

/-- `track_info`: translate a recording dictionary into a `TrackInfo`.
Each field of the single record literal is the final value the Python code
assigns to it (every field is assigned at most once along any path).
Returns `none` when the Python code would crash (an artist-credit whose
first element is not an artist object).  The plugin broadcast and
`decode()` are identity here (no plugins; encoding normalization is a no-op
on our strings). -/
def track_info (cfg : Config) (recording : Recording) (index : Option Int)
    (medium : Option Int) (medium_index : Option Int)
    (medium_total : Option Int) : Option TrackInfo :=
  let artistFields :
      Option (Option String × Option String × Option String × Option String) :=
    if recording.artistCredit.isEmpty then some (none, none, none, none)
    else
      match headCreditArtist recording.artistCredit with
      | none => none
      | some firstArtist =>
        let names := flatten_artist_credit cfg recording.artistCredit
        some (some names.1, some names.2.1, some names.2.2, some firstArtist.id)
  match artistFields with
  | none => none
  | some af =>
    let ws := workLoop ((none, none, none), [], [], [])
      recording.workRelationList
    let lyricist := ws.2.1
    let composer := ws.2.2.1
    let composerSort := ws.2.2.2
    let arranger :=
      (recording.artistRelationList.filter fun r => r.type = some "arranger").map
        fun r => r.artist.name
    some
      { title := recording.title
        track_id := recording.id
        index := index
        medium := medium
        medium_index := medium_index
        medium_total := medium_total
        data_source := "MusicBrainz"
        data_url := track_url recording.id
        artist := af.1
        artist_sort := af.2.1
        artist_credit := af.2.2.1
        artist_id := af.2.2.2
        remixer :=
          if recording.artistRelationList.isEmpty then none
          else some (get_related_artist_names recording.artistRelationList
            "remixer")
        length := recording.length
        trackdisambig := recording.disambiguation
        isrc :=
          if recording.isrcList.isEmpty then none
          else some (String.intercalate ";" recording.isrcList)
        work := ws.1.1
        mb_workid := ws.1.2.1
        work_disambig := ws.1.2.2
        lyricist :=
          if lyricist.isEmpty then none
          else some (String.intercalate ", " lyricist)
        composer :=
          if composer.isEmpty then none
          else some (String.intercalate ", " composer)
        composer_sort :=
          if composer.isEmpty then none
          else some (String.intercalate ", " composerSort)
        arranger :=
          if arranger.isEmpty then none
          else some (String.intercalate ", " arranger)
        release_track_id := none
        disctitle := none
        media := none
        track_alt := none }

/-- Python `str.split('-')`: split a character list on `'-'`, keeping empty
parts. -/
def splitDash : List Char → List (List Char)
  | [] => [[]]
  | c :: cs =>
    if c = '-' then [] :: splitDash cs
    else
      match splitDash cs with
      | [] => [[c]]
      | p :: ps => (c :: p) :: ps

/-- The numeric value of a decimal digit. -/
def digitVal (c : Char) : Option Nat :=
  if '0' ≤ c ∧ c ≤ '9' then some (c.toNat - '0'.toNat) else none

/-- A non-empty all-digit run as a number. -/
def parseDigits : List Char → Option Nat
  | [] => none
  | cs =>
    cs.foldl
      (fun acc c =>
        match acc, digitVal c with
        | some n, some d => some (n * 10 + d)
        | _, _ => none)
      (some 0)

/-- Python `int(...)` on a split date part: optional sign then decimal
digits.  (Python additionally tolerates surrounding whitespace and interior
underscores; no date handling depends on that.) -/
def pyInt (cs : List Char) : Option Int :=
  match cs with
  | '-' :: rest => (parseDigits rest).map fun n => -(n : Int)
  | '+' :: rest => (parseDigits rest).map fun n => (n : Int)
  | _ => (parseDigits cs).map fun n => (n : Int)

/-- Set one date slot on an `AlbumInfo`: slot 0/1/2 = year/month/day, with
the `original_` variants when `original` is set. -/
def setDateField (info : AlbumInfo) (original : Bool) (slot : Nat) (n : Int) :
    AlbumInfo :=
  if original then
    match slot with
    | 0 => { info with original_year := some n }
    | 1 => { info with original_month := some n }
    | _ => { info with original_day := some n }
  else
    match slot with
    | 0 => { info with year := some n }
    | 1 => { info with month := some n }
    | _ => { info with day := some n }

/-- The key loop of `_set_date_str`: one part is popped per slot; a part
that fails integer parsing leaves its slot untouched and the loop continues
with the next part and next slot; parts running out leaves the remaining
slots untouched.  (`String.toInt?` models Python `int`.) -/
def setDateLoop (original : Bool) :
    AlbumInfo → List Nat → List (List Char) → AlbumInfo
  | info, [], _ => info
  | info, _, [] => info
  | info, slot :: slots, part :: parts =>
    match pyInt part with
    | none => setDateLoop original info slots parts
    | some n => setDateLoop original (setDateField info original slot n) slots parts

/-- `_set_date_str`: apply a (possibly partial) `YYYY-MM-DD` string to an
`AlbumInfo`'s (original-)date fields.  A `none` or empty string is falsy in
`if date_str:` and leaves the record unchanged.  (`pyInt`/`splitDash` model
Python `int` / `split('-')` over the string's characters.) -/
def set_date_str (info : AlbumInfo) (dateStr : Option String) (original : Bool) :
    AlbumInfo :=
  match dateStr with
  | none => info
  | some s =>
    if s = "" then info
    else setDateLoop original info [0, 1, 2] (splitDash s.toList)

/-- Add `n` to key `k` of an insertion-ordered counter (Python
`Counter`/dict semantics: an existing key keeps its position, a new key is
appended). -/
def counterAdd (c : List (String × Int)) (k : String) (n : Int) :
    List (String × Int) :=
  match c with
  | [] => [(k, n)]
  | (k', m) :: rest =>
    if k' = k then (k', m + n) :: rest else (k', m) :: counterAdd rest k n

/-- Stable insertion (descending by count): an element is placed before the
first strictly-smaller count, after equal counts that came earlier.  This is
extensionally Python's stable `sorted(..., key=lambda g: -g[1])`. -/
def insertDesc (x : String × Int) : List (String × Int) → List (String × Int)
  | [] => [x]
  | y :: ys => if x.2 ≥ y.2 then x :: y :: ys else y :: insertDesc x ys

/-- Stable sort, descending by count. -/
def sortDesc : List (String × Int) → List (String × Int)
  | [] => []
  | x :: xs => insertDesc x (sortDesc xs)

/-- Spec-side genre rendering: merge tag-count pairs into one running total
keyed by tag name (summing counts on collision), then join tag names with
"; " in descending total-count order, ties kept in source iteration order. -/
def renderGenres (items : List GenreItem) : String :=
  String.intercalate "; "
    ((sortDesc (items.foldl (fun c g => counterAdd c g.name g.count) [])).map
      fun p => p.1)

/-- The sentinel-title / video-track skip filter applied per track (the two
`continue`s of the track loop).  The recording's `'title'` key is required
elsewhere by `track_info`, so the `'title' in track['recording']` guard is
always true in this model. -/
def skipTrack (cfg : Config) (t : Track) : Bool :=
  SKIPPED_TRACKS.contains t.recording.title ||
    (t.recording.video = some "true" && cfg.ignoreVideoTracks)

/-- The medium's track list extended with its data tracks:
`all_tracks = medium['track-list']` plus `medium['data-track-list']` when
that key is present and data tracks are not ignored.  `track_count` is the
length of this list (the pregap track is prepended only afterwards). -/
def extendedTracks (cfg : Config) (m : Medium) : List Track :=
  m.trackList ++
    match m.dataTrackList with
    | some d => if cfg.ignoreDataTracks then [] else d
    | none => []

/-- The pre-skip medium total passed as `medium_total` to every mapped
track of the medium. -/
def preSkipCount (cfg : Config) (m : Medium) : Nat :=
  (extendedTracks cfg m).length

/-- The fully assembled per-medium track list: extended with data tracks,
then prefixed with the pregap track when the medium declares one. -/
def assembledTracks (cfg : Config) (m : Medium) : List Track :=
  match m.pregap with
  | some p => p :: extendedTracks cfg m
  | none => extendedTracks cfg m

/-- The release-level track-object overrides applied after `track_info`:
attach the release-track id, disc title, medium format and display number,
and prefer track data over recording data for title / artist fields /
length where present (a non-empty-string `'title'`, a present
`'artist-credit'`, a present `'length'`).  Each field of the update is the
final value the Python assignment sequence leaves in it.  `none` models the
crash when the track's artist-credit has a non-artist first element. -/
def applyTrackOverrides (cfg : Config) (disctitle fmt : Option String)
    (t : Track) (ti : TrackInfo) : Option TrackInfo :=
  let artistOverride : Option (Option (String × String × String × String)) :=
    if t.artistCredit.isEmpty then some none
    else
      match headCreditArtist t.artistCredit with
      | none => none
      | some firstArtist =>
        let names := flatten_artist_credit cfg t.artistCredit
        some (some (names.1, names.2.1, names.2.2, firstArtist.id))
  match artistOverride with
  | none => none
  | some ov =>
    some
      { ti with
        release_track_id := some t.id
        disctitle := disctitle
        media := fmt
        track_alt := some t.number
        title :=
          match t.title with
          | some s => if s = "" then ti.title else s
          | none => ti.title
        artist := match ov with | some q => some q.1 | none => ti.artist
        artist_sort := match ov with | some q => some q.2.1 | none => ti.artist_sort
        artist_credit :=
          match ov with | some q => some q.2.2.1 | none => ti.artist_credit
        artist_id := match ov with | some q => some q.2.2.2 | none => ti.artist_id
        length :=
          match t.length with
          | some ms => some ms
          | none => ti.length }

/-- The per-track body of the medium loop: skip filtering, sequential
indexing, `track_info`, then the release-level track-object overrides.
Returns the mapped tracks plus the final overall index, or `none` on a
Python crash inside `track_info` / the artist-credit override. -/
def processTracks (cfg : Config) (mediumPos : Int) (disctitle fmt : Option String)
    (trackCount : Nat) : Nat → List Track → Option (List TrackInfo × Nat)
  | idx, [] => some ([], idx)
  | idx, t :: ts =>
    if skipTrack cfg t then processTracks cfg mediumPos disctitle fmt trackCount idx ts
    else
      let idx' := idx + 1
      match track_info cfg t.recording (some (Int.ofNat idx')) (some mediumPos)
          (some t.position) (some (Int.ofNat trackCount)) with
      | none => none
      | some ti0 =>
        match applyTrackOverrides cfg disctitle fmt t ti0 with
        | none => none
        | some ti4 =>
          match processTracks cfg mediumPos disctitle fmt trackCount idx' ts with
          | none => none
          | some (rest, idxEnd) => some (ti4 :: rest, idxEnd)

/-- Whether a medium's format is in the configured ignored-media list
(`None` is never in a list of strings). -/
def mediumIgnored (cfg : Config) (m : Medium) : Bool :=
  match m.format with
  | some f => cfg.ignoredMedia.contains f
  | none => false

/-- The medium loop of `album_info`, threading the overall track index. -/
def processMedia (cfg : Config) : Nat → List Medium → Option (List TrackInfo)
  | _, [] => some []
  | idx, m :: ms =>
    if mediumIgnored cfg m then processMedia cfg idx ms
    else
      match processTracks cfg m.position m.title m.format (preSkipCount cfg m)
          idx (assembledTracks cfg m) with
      | none => none
      | some (tis, idx') =>
        match processMedia cfg idx' ms with
        | none => none
        | some rest => some (tis ++ rest)

/-- `album_info` (minus the track-count-overflow recovery, which lives in
`album_info_full`): translate a release dictionary into an `AlbumInfo`.
Each field of the record literal is the final value the Python code leaves
in it (the fields are pairwise independent; the two date ranges, written by
`_set_date_str`, are applied to the record afterwards, which commutes with
the other, disjoint field assignments).  Returns `none` where the Python
would crash (first artist-credit element not an artist object, here or
inside a track).  Plugin broadcast and `decode()` are identity as in
`track_info`. -/
def album_info (cfg : Config) (release : Release) : Option AlbumInfo :=
  let names := flatten_artist_credit cfg release.artistCredit
  match processMedia cfg 0 release.mediumList with
  | none => none
  | some trackInfos =>
    match headCreditArtist release.artistCredit with
    | none => none
    | some firstArtist =>
      let va : Bool := firstArtist.id = VARIOUS_ARTISTS_ID
      let ev := preferred_release_event cfg release
      let rgDate := release.releaseGroup.firstReleaseDate
      let releaseDate :=
        match ev.2 with
        | some s => if s = "" then rgDate else some s
        | none => rgDate
      let infoBase : AlbumInfo :=
        { album := release.title
          album_id := release.id
          artist := if va then cfg.vaName else names.1
          artist_id := firstArtist.id
          tracks := trackInfos
          mediums := Int.ofNat release.mediumList.length
          artist_sort := names.2.1
          artist_credit := names.2.2
          data_source := "MusicBrainz"
          data_url := album_url release.id
          va := va
          asin := release.asin
          releasegroup_id := release.releaseGroup.id
          albumstatus := release.status
          releasegroupdisambig :=
            match release.releaseGroup.disambiguation with
            | some d => if d = "" then none else some d
            | none => none
          albumdisambig :=
            match release.disambiguation with
            | some d => if d = "" then none else some d
            | none => none
          albumtype :=
            match release.releaseGroup.type with
            | some t => if t = "" then none else some t.toLower
            | none => none
          albumtypes :=
            (match release.releaseGroup.primaryType with
              | some p => if p = "" then [] else [p.toLower]
              | none => []) ++
            (match release.releaseGroup.secondaryTypeList with
              | some l => l.map String.toLower
              | none => [])
          country := ev.1
          year := none, month := none, day := none
          original_year := none, original_month := none, original_day := none
          label :=
            match release.labelInfoList with
            | [] => none
            | li :: _ =>
              match li.label with
              | some lo => if lo.name = "[no label]" then none else some lo.name
              | none => none
          catalognum :=
            match release.labelInfoList with
            | [] => none
            | li :: _ => li.catalogNumber
          script :=
            match release.textRepresentation with
            | some rep => rep.script
            | none => none
          language :=
            match release.textRepresentation with
            | some rep => rep.language
            | none => none
          media :=
            match release.mediumList with
            | [] => none
            | m :: _ => m.format
          genre :=
            if cfg.genres then
              some (String.intercalate "; "
                ((sortDesc
                  ((release.releaseGroup.genreList ++ release.genreList).foldl
                    (fun c g => counterAdd c g.name g.count) [])).map
                  fun p => p.1))
            else none }
      some (set_date_str (set_date_str infoBase releaseDate false) rgDate true)

/-- `ntracks`: total track count across all media
(`sum(len(m['track-list']) for m in release['medium-list'])`; data tracks
and pregaps are not counted). -/
def trackTotal (release : Release) : Nat :=
  (release.mediumList.map fun m => m.trackList.length).sum

/-- Python-dict lookup for `{r['id']: r for r in recording_list}`: later
entries overwrite earlier ones, so search from the end. -/
def dictLookup (recs : List Recording) (id : String) : Option Recording :=
  recs.reverse.find? fun r => r.id = id

/-- The concatenated browse results: one `browse_recordings` page per offset
`0, 100, 200, ...` below `ntracks` (`range(0, ntracks, BROWSE_CHUNKSIZE)`). -/
def collectBrowse (browse : Nat → List Recording) (ntracks : Nat) :
    List Recording :=
  ((List.range ((ntracks + BROWSE_CHUNKSIZE - 1) / BROWSE_CHUNKSIZE)).map
    fun k => browse (k * BROWSE_CHUNKSIZE)).flatten

/-- Substitute one track's embedded recording object with the
fully-populated one from the lookup; `none` models the `KeyError` when the
recording id is missing from the browse results. -/
def substTrack (lookup : String → Option Recording) (t : Track) : Option Track :=
  match lookup t.recording.id with
  | some r => some { t with recording := r }
  | none => none

/-- `Option`-valued `mapM` with explicit recursion. -/
def optionMapM (f : α → Option β) : List α → Option (List β)
  | [] => some []
  | x :: xs =>
    match f x, optionMapM f xs with
    | some y, some ys => some (y :: ys)
    | _, _ => none

/-- Substitute the recordings of a medium's `track-list` (data-track and
pregap recordings are not substituted, matching the source's loop over
`medium['track-list']` only). -/
def substMedium (lookup : String → Option Recording) (m : Medium) :
    Option Medium :=
  match optionMapM (substTrack lookup) m.trackList with
  | some tl => some { m with trackList := tl }
  | none => none

/-- Substitute every medium's track recordings. -/
def substRelease (lookup : String → Option Recording) (rel : Release) :
    Option Release :=
  match optionMapM (substMedium lookup) rel.mediumList with
  | some ml => some { rel with mediumList := ml }
  | none => none

/-- The full `album_info` including the track-count-overflow recovery: when
`ntracks` exceeds `BROWSE_MAXTRACKS`, collect paginated browse results,
build the id-keyed lookup, substitute each track's embedded recording, and
proceed; otherwise proceed directly.  `browse` models
`musicbrainzngs.browse_recordings` restricted to this release, as a function
of the offset. -/
def album_info_full (browse : Nat → List Recording) (cfg : Config)
    (release : Release) : Option AlbumInfo :=
  let ntracks := trackTotal release
  if ntracks > BROWSE_MAXTRACKS then
    match substRelease (dictLookup (collectBrowse browse ntracks)) release with
    | some release2 => album_info cfg release2
    | none => none
  else album_info cfg release

/-- The character class `[a-f0-9]` of the MBID regex (lowercase only; the
pattern is compiled without `re.I`). -/
def isLowerHex (c : Char) : Bool :=
  ('a' ≤ c && c ≤ 'f') || ('0' ≤ c && c ≤ '9')

/-- The case-insensitive variant `[a-fA-F0-9]`, used only to state what a
"UUID-shaped substring" is independently of case. -/
def isHexCI (c : Char) : Bool :=
  ('a' ≤ c && c ≤ 'f') || ('A' ≤ c && c ≤ 'F') || ('0' ≤ c && c ≤ '9')

/-- Take exactly `n` leading characters satisfying `hex`, returning them and
the rest. -/
def takeHexRun (hex : Char → Bool) : Nat → List Char → Option (List Char × List Char)
  | 0, cs => some ([], cs)
  | _ + 1, [] => none
  | n + 1, c :: cs =>
    if hex c then
      match takeHexRun hex n cs with
      | some (run, rest) => some (c :: run, rest)
      | none => none
    else none

/-- Match the `(-[hex]{n})*` tail groups of the UUID pattern. -/
def matchGroups (hex : Char → Bool) : List Nat → List Char → Option (List Char)
  | [], _ => some []
  | n :: ns, cs =>
    match cs with
    | '-' :: cs' =>
      match takeHexRun hex n cs' with
      | some (run, rest) =>
        match matchGroups hex ns rest with
        | some m => some ('-' :: (run ++ m))
        | none => none
      | none => none
    | _ => none

/-- Match the full 8-4-4-4-12 pattern at the start of the character list,
returning the matched characters. -/
def matchUUIDWith (hex : Char → Bool) (cs : List Char) : Option (List Char) :=
  match takeHexRun hex 8 cs with
  | some (run, rest) =>
    match matchGroups hex [4, 4, 4, 12] rest with
    | some m => some (run ++ m)
    | none => none
  | none => none

/-- `re.search`: try the pattern at each start position, leftmost first. -/
def searchUUIDWith (hex : Char → Bool) : List Char → Option (List Char)
  | [] => none
  | c :: cs =>
    match matchUUIDWith hex (c :: cs) with
    | some m => some m
    | none => searchUUIDWith hex cs

/-- An uppercase hexadecimal letter (digits have no case). -/
def isUpperHexLetter (c : Char) : Bool := 'A' ≤ c && c ≤ 'F'

/-- Every position where the case-insensitive UUID pattern matches yields a
match containing at least one uppercase hex letter.  This states "the
string's only UUID-shaped substrings use uppercase hex digits". -/
def ciMatchesAllUpperAux : List Char → Bool
  | [] => true
  | c :: cs =>
    (match matchUUIDWith isHexCI (c :: cs) with
      | some m => m.any isUpperHexLetter
      | none => true) && ciMatchesAllUpperAux cs

/-- String-level wrapper of `ciMatchesAllUpperAux`. -/
def ciMatchesAllUpper (s : String) : Bool := ciMatchesAllUpperAux s.toList

/-- `_parse_id`: the first UUID-shaped (lowercase) substring, or `none`. -/
def parse_id (s : String) : Option String :=
  (searchUUIDWith isLowerHex s.toList).map fun cs => String.mk cs

/-- Exceptions the `musicbrainzngs` calls may raise, as observed by the
`except` clauses: `responseError` (`musicbrainzngs.ResponseError`, the
"no such entity" case), `webServiceError` (a `WebServiceError` that is not a
`ResponseError`) and `musicBrainzError` (any other `MusicBrainzError`). -/
inductive FetchError where
  | responseError
  | webServiceError (reason : String)
  | musicBrainzError (reason : String)
  deriving Repr, DecidableEq

/-- `MusicBrainzAPIError` as constructed by the source: the constructor
replaces a `WebServiceError` reason with "MusicBrainz not reachable" and
records the verb and the query that triggered the call. -/
structure MusicBrainzAPIError where
  reason : String
  verb : String
  query : String
  deriving Repr, DecidableEq

/-- The `MusicBrainzAPIError.__init__` reason normalization. -/
def mkAPIError (e : FetchError) (verb query : String) : MusicBrainzAPIError :=
  match e with
  | FetchError.responseError => { reason := "MusicBrainz not reachable", verb, query }
  | FetchError.webServiceError _ => { reason := "MusicBrainz not reachable", verb, query }
  | FetchError.musicBrainzError r => { reason := r, verb, query }

/-- How a by-ID lookup can fail: a raised `MusicBrainzAPIError`, or an
uncaught Python exception from the mapping itself (`crash`). -/
inductive LookupFailure where
  | api (e : MusicBrainzAPIError)
  | crash
  deriving Repr, DecidableEq

/-- `album_for_id`.  `fetch` models
`musicbrainzngs.get_release_by_id(albumid, RELEASE_INCLUDES)`. -/
def album_for_id (fetch : String → Except FetchError Release) (cfg : Config)
    (releaseid : String) : Except LookupFailure (Option AlbumInfo) :=
  match parse_id releaseid with
  | none => Except.ok none
  | some albumid =>
    if albumid = "" then Except.ok none
    else
      match fetch albumid with
      | Except.error FetchError.responseError => Except.ok none
      | Except.error e =>
        Except.error (LookupFailure.api (mkAPIError e "get release by ID" albumid))
      | Except.ok res =>
        match album_info cfg res with
        | some info => Except.ok (some info)
        | none => Except.error LookupFailure.crash

/-- `track_for_id`.  `fetch` models
`musicbrainzngs.get_recording_by_id(trackid, TRACK_INCLUDES)`. -/
def track_for_id (fetch : String → Except FetchError Recording) (cfg : Config)
    (releaseid : String) : Except LookupFailure (Option TrackInfo) :=
  match parse_id releaseid with
  | none => Except.ok none
  | some trackid =>
    if trackid = "" then Except.ok none
    else
      match fetch trackid with
      | Except.error FetchError.responseError => Except.ok none
      | Except.error e =>
        Except.error (LookupFailure.api (mkAPIError e "get recording by ID" trackid))
      | Except.ok res =>
        match track_info cfg res none none none none with
        | some info => Except.ok (some info)
        | none => Except.error LookupFailure.crash

end MB

namespace EmbedArt

/-- The two recognized embedded-image kinds (`mediafile.imagekind`). -/
inductive ImageKind where
  | JPEG
  | PNG
  deriving Repr, DecidableEq

/-- An audio file as the plugin sees it: a path and the tag block's embedded
art (bytes paired with the stored kind), if any. -/
structure MediaItem where
  path : String
  art : Option (List Nat × ImageKind)
  deriving Repr, DecidableEq

/-- Outcome of `_embed`: the (possibly updated) items and the error message
logged when the sniffed format is not allowed. -/
structure EmbedResult where
  items : List MediaItem
  errorLogged : Option String
  deriving Repr, DecidableEq

/-- `_embed`: sniff the image bytes (`what` models `imghdr.what(None, data)`);
JPEG/PNG are written into every item's tag block (overwriting existing art,
saving each file), anything else logs an error and returns without touching
any item. -/
def embedImage (what : List Nat → Option String) (data : List Nat)
    (items : List MediaItem) : EmbedResult :=
  let kindstr := what data
  if kindstr = some "jpeg" then
    { items := items.map fun it => { it with art := some (data, ImageKind.JPEG) }
      errorLogged := none }
  else if kindstr = some "png" then
    { items := items.map fun it => { it with art := some (data, ImageKind.PNG) }
      errorLogged := none }
  else
    { items := items
      errorLogged := some "A file of type %s is not allowed as coverart." }

end EmbedArt

namespace MB

/-- The claim's reading of the partial-date parser: consume parts
left-to-right into (year, month, day) slots, leaving ALL trailing slots
unset at the first non-integer or missing part (stop semantics). -/
def stopParse (parts : List (List Char)) : Option Int × Option Int × Option Int :=
  match parts with
  | [] => (none, none, none)
  | p0 :: rest0 =>
    match pyInt p0 with
    | none => (none, none, none)
    | some y =>
      match rest0 with
      | [] => (some y, none, none)
      | p1 :: rest1 =>
        match pyInt p1 with
        | none => (some y, none, none)
        | some mo =>
          match rest1 with
          | [] => (some y, some mo, none)
          | p2 :: _ =>
            match pyInt p2 with
            | none => (some y, some mo, none)
            | some d => (some y, some mo, some d)

/-- What the code actually implements: one part is popped per slot, so slot
`k` is set iff the `k`-th dash-separated part exists and parses as an
integer; a non-integer part leaves only its own slot unset. -/
def slotParse (parts : List (List Char)) : Option Int × Option Int × Option Int :=
  ((parts.get? 0).bind pyInt,
   (parts.get? 1).bind pyInt,
   (parts.get? 2).bind pyInt)

/-- The year/month/day triple of an `AlbumInfo` — the `original_` one when
`original` is set. -/
def dateFields (info : AlbumInfo) (original : Bool) :
    Option Int × Option Int × Option Int :=
  if original then (info.original_year, info.original_month, info.original_day)
  else (info.year, info.month, info.day)

/-- A reference track with "identical per-track relation data": equal to `t`
in every release-level field, with an embedded recording that shares its id
and is exactly what the browse lookup returns for that id. -/
def TrackAligned (lookup : String → Option Recording) (t tref : Track) : Prop :=
  t.id = tref.id ∧ t.position = tref.position ∧ t.number = tref.number ∧
  t.title = tref.title ∧ t.artistCredit = tref.artistCredit ∧
  t.length = tref.length ∧ lookup t.recording.id = some tref.recording

/-- Media aligned trackwise, equal in all other fields. -/
def MediumAligned (lookup : String → Option Recording) (m mref : Medium) :
    Prop :=
  m.title = mref.title ∧ m.format = mref.format ∧ m.position = mref.position ∧
  m.dataTrackList = mref.dataTrackList ∧ m.pregap = mref.pregap ∧
  List.Forall₂ (TrackAligned lookup) m.trackList mref.trackList

/-- Releases aligned mediumwise, equal in all other fields: `rref` is `r`
with each track's embedded recording replaced by the fully-populated one
the lookup holds for its recording id. -/
def ReleaseAligned (lookup : String → Option Recording) (r rref : Release) :
    Prop :=
  r.title = rref.title ∧ r.id = rref.id ∧ r.artistCredit = rref.artistCredit ∧
  r.releaseGroup = rref.releaseGroup ∧ r.asin = rref.asin ∧
  r.status = rref.status ∧ r.disambiguation = rref.disambiguation ∧
  r.releaseEventList = rref.releaseEventList ∧ r.country = rref.country ∧
  r.date = rref.date ∧ r.labelInfoList = rref.labelInfoList ∧
  r.textRepresentation = rref.textRepresentation ∧
  r.genreList = rref.genreList ∧
  List.Forall₂ (MediumAligned lookup) r.mediumList rref.mediumList

end MB

namespace Samples

open MB EmbedArt

/-- A default configuration: no locale preferences, nothing ignored. -/
def cfgDefault : Config :=
  { languages := [], ignoredAliasTypes := [], preferredCountries := []
    ignoredMedia := [], ignoreDataTracks := false, ignoreVideoTracks := false
    genres := false, vaName := "Various Artists" }

/-- An `AlbumInfo` with every optional field unset. -/
def blankInfo : AlbumInfo :=
  { album := "", album_id := "", artist := "", artist_id := "", tracks := []
    mediums := 0, artist_sort := "", artist_credit := ""
    data_source := "", data_url := "", va := false, asin := none
    releasegroup_id := "", albumstatus := none, releasegroupdisambig := none
    albumdisambig := none, albumtype := none, albumtypes := [], country := none
    year := none, month := none, day := none, original_year := none
    original_month := none, original_day := none, label := none
    catalognum := none, script := none, language := none, media := none
    genre := none }

/-- A recording with no optional data. -/
def plainRec (title id : String) : Recording :=
  { title := title, id := id, artistCredit := [], artistRelationList := []
    length := none, disambiguation := none, isrcList := [], video := none
    workRelationList := [] }

/-- A recording whose artist-relation list is non-empty but contains no
remixer-type entry (only an arranger). -/
def recArrangerOnly : Recording :=
  { plainRec "Song" "rec-a" with
    artistRelationList := [{ type := some "arranger", artist := ⟨"Arr", "Arr"⟩ }] }

/-- A plain track around a recording. -/
def plainTrack (rec : Recording) (id : String) (pos : Int) : Track :=
  { recording := rec, id := id, position := pos, number := toString pos
    title := none, artistCredit := [], length := none }

/-- An empty release group. -/
def rgEmpty : ReleaseGroup :=
  { id := "rg-1", disambiguation := none, type := none, primaryType := none
    secondaryTypeList := none, firstReleaseDate := none, genreList := [] }

/-- A plain artist without aliases. -/
def plainArtist (name id : String) : Artist :=
  { name := name, sortName := none, id := id, aliasList := [] }

/-- A release skeleton around a medium list and an artist credit. -/
def mkRelease (credit : List CreditElem) (media : List Medium) : Release :=
  { title := "Album", id := "rel-1", artistCredit := credit
    mediumList := media, releaseGroup := rgEmpty, asin := none, status := none
    disambiguation := none, releaseEventList := [], country := none
    date := none, labelInfoList := [], textRepresentation := none
    genreList := [] }

/-- A medium with one regular track and a pregap track. -/
def mediumPregap : Medium :=
  { title := none, format := none, position := 1
    trackList := [plainTrack (plainRec "T1" "r1") "t1" 1]
    dataTrackList := none
    pregap := some (plainTrack (plainRec "T0" "r0") "t0" 0) }

/-- The release exhibiting the pregap/medium-total discrepancy. -/
def relPregap : Release :=
  mkRelease [CreditElem.artist none (plainArtist "Artist" "a-1")] [mediumPregap]

/-- Configuration with genre lookup enabled. -/
def cfgGenres : Config := { cfgDefault with genres := true }

/-- Configuration preferring locales [en, fr]. -/
def cfgEnFr : Config := { cfgDefault with languages := ["en", "fr"] }

/-- A release credited to the reserved various-artists identifier. -/
def relVA : Release :=
  mkRelease [CreditElem.artist none (plainArtist "Anyone" VARIOUS_ARTISTS_ID)] []

/-- The genre-merge example: release-group {rock:5, pop:2}, release
{pop:1, jazz:1}. -/
def relGenres : Release :=
  { mkRelease [CreditElem.artist none (plainArtist "Artist" "a-1")] [] with
    releaseGroup := { rgEmpty with genreList := [⟨"rock", 5⟩, ⟨"pop", 2⟩] }
    genreList := [⟨"pop", 1⟩, ⟨"jazz", 1⟩] }

/-- A primary French alias (listed first). -/
def aliasFr : Alias :=
  { locale := some "fr", primary := true, type := some "Artist name"
    aliasName := "Nom FR", sortName := "FR, Nom" }

/-- A primary English alias (listed second). -/
def aliasEn : Alias :=
  { locale := some "en", primary := true, type := some "Artist name"
    aliasName := "EN Name", sortName := "Name, EN" }

/-- A lowercase MBID embedded in surrounding text. -/
def uuidStr : String := "x 89ad4ac3-39f7-470e-963a-56509c546377 y"

/-- The same MBID with uppercase hex digits: not matched by the pattern. -/
def upperUuidStr : String := "89AD4AC3-39F7-470E-963A-56509C546377"

/-- The single shared track of the 501-track release. -/
def bigTrack : Track := plainTrack (plainRec "T" "r-big") "t" 1

/-- A medium holding 501 copies of the same track (the remote service
allows one recording on many tracks; sharing one id keeps the witness
small). -/
def bigMedium : Medium :=
  { title := none, format := none, position := 1
    trackList := List.replicate 501 bigTrack, dataTrackList := none
    pregap := none }

/-- A release whose total track count (501) exceeds the browse threshold. -/
def bigRel : Release :=
  mkRelease [CreditElem.artist none (plainArtist "Artist" "a-1")] [bigMedium]

/-- A browse stub: every page returns the one recording of `bigRel`. -/
def browseBig : Nat → List Recording := fun _ => [plainRec "T" "r-big"]

/-- A `TrackInfo` with every optional field unset (a `getD` default). -/
def blankTrackInfo : TrackInfo :=
  { title := "", track_id := "", index := none, medium := none
    medium_index := none, medium_total := none, data_source := ""
    data_url := "", artist := none, artist_sort := none, artist_credit := none
    artist_id := none, remixer := none, length := none, trackdisambig := none
    isrc := none, work := none, mb_workid := none, work_disambig := none
    lyricist := none, composer := none, composer_sort := none, arranger := none
    release_track_id := none, disctitle := none, media := none
    track_alt := none }

/-- A media item with no embedded art. -/
def itemNoArt : EmbedArt.MediaItem := { path := "a.mp3", art := none }

/-- A media item with pre-existing embedded art. -/
def itemOldArt : EmbedArt.MediaItem :=
  { path := "b.mp3", art := some ([9, 9], EmbedArt.ImageKind.PNG) }

end Samples

open MB EmbedArt Samples

theorem setDateField_preserves (info : AlbumInfo) (original : Bool)
    (slot : Nat) (n : Int) :
    (setDateField info original slot n).genre = info.genre ∧
    (setDateField info original slot n).va = info.va ∧
    (setDateField info original slot n).artist = info.artist ∧
    (setDateField info original slot n).artist_id = info.artist_id ∧
    (setDateField info original slot n).tracks = info.tracks := by
  cases original <;> rcases slot with _ | _ | s <;> simp [setDateField]

theorem setDateLoop_preserves (original : Bool) (info : AlbumInfo)
    (slots : List Nat) (parts : List (List Char)) :
    (setDateLoop original info slots parts).genre = info.genre ∧
    (setDateLoop original info slots parts).va = info.va ∧
    (setDateLoop original info slots parts).artist = info.artist ∧
    (setDateLoop original info slots parts).artist_id = info.artist_id ∧
    (setDateLoop original info slots parts).tracks = info.tracks := by
  induction slots generalizing info parts with
  | nil => simp [setDateLoop]
  | cons s ss ih =>
    cases parts with
    | nil => simp [setDateLoop]
    | cons p ps =>
      cases h : pyInt p with
      | none => simpa [setDateLoop, h] using ih ..
      | some n =>
        have := ih (setDateField info original s n) ps
        simp only [setDateLoop, h]
        simp [this, setDateField_preserves]

theorem set_date_str_preserves (info : AlbumInfo) (d : Option String)
    (original : Bool) :
    (set_date_str info d original).genre = info.genre ∧
    (set_date_str info d original).va = info.va ∧
    (set_date_str info d original).artist = info.artist ∧
    (set_date_str info d original).artist_id = info.artist_id ∧
    (set_date_str info d original).tracks = info.tracks := by
  cases d with
  | none => simp [set_date_str]
  | some s =>
    by_cases h : s = "" <;> simp [set_date_str, h, setDateLoop_preserves]

/-- C9: an embed call whose image bytes sniff to a format other than JPEG or
PNG logs an error and aborts without writing to any target item's tag block;
for JPEG and PNG inputs the image bytes are written into the tag block of
every target item, overwriting any existing embedded art. -/
theorem C9_embed_format_gate (what : List Nat → Option String)
    (data : List Nat) (items : List MediaItem) :
    (what data ≠ some "jpeg" → what data ≠ some "png" →
      (embedImage what data items).items = items ∧
      ((embedImage what data items).errorLogged).isSome = true) ∧
    (what data = some "jpeg" →
      (embedImage what data items).errorLogged = none ∧
      ((embedImage what data items).items).length = items.length ∧
      ∀ it ∈ (embedImage what data items).items,
        it.art = some (data, ImageKind.JPEG)) ∧
    (what data = some "png" →
      (embedImage what data items).errorLogged = none ∧
      ((embedImage what data items).items).length = items.length ∧
      ∀ it ∈ (embedImage what data items).items,
        it.art = some (data, ImageKind.PNG)) := by
  refine ⟨fun h1 h2 => ?_, fun h => ?_, fun h => ?_⟩
  · simp [embedImage, h1, h2]
  · simp [embedImage, h]
  · have h1 : what data ≠ some "jpeg" := by simp [h]
    simp [embedImage, h, h1]

theorem C9_embed_format_gate_witness :
    ((embedImage (fun _ => some "gif") [1, 2] [itemNoArt, itemOldArt]).items
        = [itemNoArt, itemOldArt] ∧
      ((embedImage (fun _ => some "gif") [1, 2]
        [itemNoArt, itemOldArt]).errorLogged).isSome = true) ∧
    ((embedImage (fun _ => some "jpeg") [1, 2] [itemNoArt, itemOldArt]).errorLogged
        = none ∧
      ((embedImage (fun _ => some "jpeg") [1, 2]
        [itemNoArt, itemOldArt]).items).length = 2 ∧
      ∀ it ∈ (embedImage (fun _ => some "jpeg") [1, 2]
        [itemNoArt, itemOldArt]).items,
        it.art = some ([1, 2], ImageKind.JPEG)) ∧
    ((embedImage (fun _ => some "png") [1, 2] [itemNoArt, itemOldArt]).errorLogged
        = none ∧
      ((embedImage (fun _ => some "png") [1, 2]
        [itemNoArt, itemOldArt]).items).length = 2 ∧
      ∀ it ∈ (embedImage (fun _ => some "png") [1, 2]
        [itemNoArt, itemOldArt]).items,
        it.art = some ([1, 2], ImageKind.PNG)) :=
  ⟨(C9_embed_format_gate (fun _ => some "gif") [1, 2] [itemNoArt, itemOldArt]).1
      (by decide) (by decide),
   (C9_embed_format_gate (fun _ => some "jpeg") [1, 2] [itemNoArt, itemOldArt]).2.1
      rfl,
   (C9_embed_format_gate (fun _ => some "png") [1, 2] [itemNoArt, itemOldArt]).2.2
      rfl⟩

theorem setDateLoop_slots (original : Bool) (info : AlbumInfo)
    (parts : List (List Char)) :
    dateFields (setDateLoop original info [0, 1, 2] parts) original =
      ((slotParse parts).1.elim (dateFields info original).1 some,
       (slotParse parts).2.1.elim (dateFields info original).2.1 some,
       (slotParse parts).2.2.elim (dateFields info original).2.2 some) ∧
    dateFields (setDateLoop original info [0, 1, 2] parts) (!original) =
      dateFields info (!original) := by
  rcases parts with _ | ⟨p0, _ | ⟨p1, _ | ⟨p2, rest⟩⟩⟩
  · cases original <;> simp [setDateLoop, slotParse, dateFields]
  · cases h0 : pyInt p0 <;> cases original <;>
      simp [setDateLoop, setDateField, slotParse, dateFields, h0]
  · cases h0 : pyInt p0 <;> cases h1 : pyInt p1 <;> cases original <;>
      simp [setDateLoop, setDateField, slotParse, dateFields, h0, h1]
  · cases h0 : pyInt p0 <;> cases h1 : pyInt p1 <;> cases h2 : pyInt p2 <;>
      cases original <;>
      simp [setDateLoop, setDateField, slotParse, dateFields, h0, h1, h2]

/-- C5 is refuted by `"2000-bad-05"`: the claim says all slots after the
first non-integer part stay unset, but the code consumes one part per slot
and only the non-integer part's own slot stays unset, so day = 5 here. -/
theorem C5_counterexample :
    ¬ (∀ s : String, s ≠ "" →
        dateFields (set_date_str blankInfo (some s) false) false =
          stopParse (splitDash s.toList)) := by
  intro h
  exact absurd (h "2000-bad-05" (by decide)) (by decide)

/-- C5 amended: the parser splits on "-" and pops one part per (year,
month, day) slot; slot k is set iff the k-th part exists and parses as an
integer — a non-integer part leaves only its own slot untouched, a missing
part leaves the remaining slots untouched; `""` and absent strings leave
the record unchanged (so "1999" → year only, "1999-07" → year and month). -/
theorem C5_slot_date_parsing (info : AlbumInfo) (s : String) (original : Bool)
    (h : s ≠ "") :
    dateFields (set_date_str info (some s) original) original =
      ((slotParse (splitDash s.toList)).1.elim (dateFields info original).1 some,
       (slotParse (splitDash s.toList)).2.1.elim (dateFields info original).2.1 some,
       (slotParse (splitDash s.toList)).2.2.elim (dateFields info original).2.2 some) ∧
    dateFields (set_date_str info (some s) original) (!original) =
      dateFields info (!original) ∧
    set_date_str info none original = info ∧
    set_date_str info (some "") original = info := by
  refine ⟨?_, ?_, rfl, by simp [set_date_str]⟩
  · rw [show set_date_str info (some s) original =
        setDateLoop original info [0, 1, 2] (splitDash s.toList) from by
      simp [set_date_str, h]]
    exact (setDateLoop_slots original info (splitDash s.toList)).1
  · rw [show set_date_str info (some s) original =
        setDateLoop original info [0, 1, 2] (splitDash s.toList) from by
      simp [set_date_str, h]]
    exact (setDateLoop_slots original info (splitDash s.toList)).2

theorem C5_slot_date_parsing_witness :
    (dateFields (set_date_str blankInfo (some "1999-07") false) false =
      ((slotParse (splitDash "1999-07".toList)).1.elim
        (dateFields blankInfo false).1 some,
       (slotParse (splitDash "1999-07".toList)).2.1.elim
        (dateFields blankInfo false).2.1 some,
       (slotParse (splitDash "1999-07".toList)).2.2.elim
        (dateFields blankInfo false).2.2 some) ∧
     dateFields (set_date_str blankInfo (some "1999-07") false) (!false) =
      dateFields blankInfo (!false) ∧
     set_date_str blankInfo none false = blankInfo ∧
     set_date_str blankInfo (some "") false = blankInfo) ∧
    dateFields (set_date_str blankInfo (some "1999-07") false) false =
      (some 1999, some 7, none) :=
  ⟨C5_slot_date_parsing blankInfo "1999-07" false (by decide), by decide⟩

/-- C4 is refuted by a recording whose artist-relation list holds only an
arranger entry: the code then sets remixer to the empty string (a present
value), while the claim requires the field to be absent whenever no
remixer-type relation exists. -/
theorem C4_counterexample :
    ¬ (∀ (cfg : Config) (rec : Recording) (ti : TrackInfo),
        track_info cfg rec none none none none = some ti →
        ti.remixer =
          if rec.artistRelationList.any (fun r => r.type = some "remixer")
          then some (get_related_artist_names rec.artistRelationList "remixer")
          else none) := by
  intro h
  cases hE : track_info cfgDefault recArrangerOnly none none none none with
  | none => exact absurd hE (by decide)
  | some ti =>
    have h1 : (track_info cfgDefault recArrangerOnly none none none none).map
        (fun t => t.remixer) = some (some "") := by decide
    rw [hE] at h1
    have hrem : ti.remixer = some "" := by simpa using h1
    have h2 := h _ _ ti hE
    rw [hrem] at h2
    revert h2
    decide

/-- C4 amended: the remixer field equals the remixer-type relation names
joined with ", " whenever the recording's artist-relation list is non-empty
(the empty string when that list contains no remixer-type entry), and is
absent exactly when the artist-relation list is empty or missing. -/
theorem C4_remixer_amended (cfg : Config) (rec : Recording)
    (i m mi mt : Option Int) (ti : TrackInfo)
    (h : track_info cfg rec i m mi mt = some ti) :
    ti.remixer =
      if rec.artistRelationList.isEmpty then none
      else some (get_related_artist_names rec.artistRelationList "remixer") := by
  unfold track_info at h
  split at h
  · simp only [] at h
    injection h with h2
    subst h2
    rfl
  · split at h
    · exact absurd h (by simp)
    · simp only [] at h
      injection h with h2
      subst h2
      rfl

theorem C4_remixer_amended_witness :
    track_info cfgDefault recArrangerOnly none none none none =
      some ((track_info cfgDefault recArrangerOnly none none none none).getD
        blankTrackInfo) ∧
    ((track_info cfgDefault recArrangerOnly none none none none).getD
        blankTrackInfo).remixer =
      (if recArrangerOnly.artistRelationList.isEmpty then none
       else some (get_related_artist_names recArrangerOnly.artistRelationList
         "remixer")) :=
  ⟨by decide,
   C4_remixer_amended cfgDefault recArrangerOnly none none none none _ (by decide)⟩

theorem track_info_medium_total (cfg : Config) (rec : Recording)
    (i m mi mt : Option Int) (ti : TrackInfo)
    (h : track_info cfg rec i m mi mt = some ti) : ti.medium_total = mt := by
  unfold track_info at h
  split at h
  · simp only [] at h
    injection h with h2
    subst h2
    rfl
  · split at h
    · exact absurd h (by simp)
    · simp only [] at h
      injection h with h2
      subst h2
      rfl

theorem applyTrackOverrides_medium_total (cfg : Config)
    (disctitle fmt : Option String) (t : Track) (ti ti2 : TrackInfo)
    (h : applyTrackOverrides cfg disctitle fmt t ti = some ti2) :
    ti2.medium_total = ti.medium_total := by
  unfold applyTrackOverrides at h
  split at h
  · simp only [] at h
    injection h with h2
    subst h2
    rfl
  · split at h
    · exact absurd h (by simp)
    · simp only [] at h
      injection h with h2
      subst h2
      rfl

theorem processTracks_medium_total (cfg : Config) (mp : Int)
    (dt fmt : Option String) (tc : Nat) (ts : List Track) (idx : Nat)
    (tis : List TrackInfo) (idx2 : Nat)
    (h : processTracks cfg mp dt fmt tc idx ts = some (tis, idx2)) :
    ∀ ti ∈ tis, ti.medium_total = some (Int.ofNat tc) := by
  induction ts generalizing idx tis idx2 with
  | nil =>
    simp only [processTracks] at h
    injection h with h2
    injection h2 with ha hb
    subst ha
    simp
  | cons t ts ih =>
    rw [processTracks] at h
    by_cases hs : skipTrack cfg t
    · rw [if_pos hs] at h
      exact ih _ _ _ h
    · rw [if_neg hs] at h
      simp only [] at h
      cases hti : track_info cfg t.recording (some (Int.ofNat (idx + 1)))
          (some mp) (some t.position) (some (Int.ofNat tc)) with
      | none => simp only [hti] at h; exact absurd h (by simp)
      | some ti0 =>
        simp only [hti] at h
        cases hov : applyTrackOverrides cfg dt fmt t ti0 with
        | none => simp only [hov] at h; exact absurd h (by simp)
        | some ti4 =>
          simp only [hov] at h
          cases hrec : processTracks cfg mp dt fmt tc (idx + 1) ts with
          | none => simp only [hrec] at h; exact absurd h (by simp)
          | some pr =>
            simp only [hrec] at h
            injection h with h2
            injection h2 with ha hb
            subst ha
            intro ti hmem
            rcases List.mem_cons.mp hmem with rfl | hmem2
            · rw [applyTrackOverrides_medium_total cfg dt fmt t ti0 ti hov,
                track_info_medium_total cfg t.recording _ _ _ _ ti0 hti]
            · exact ih (idx + 1) pr.1 pr.2 (by rw [hrec]) ti hmem2

theorem processMedia_blocks (cfg : Config) (ms : List Medium) (idx : Nat)
    (tis : List TrackInfo) (h : processMedia cfg idx ms = some tis) :
    ∃ blocks : List (Medium × List TrackInfo),
      blocks.map Prod.fst = ms.filter (fun m => !mediumIgnored cfg m) ∧
      tis = (blocks.map Prod.snd).flatten ∧
      ∀ p ∈ blocks, ∀ ti ∈ p.2,
        ti.medium_total = some (Int.ofNat (preSkipCount cfg p.1)) := by
  induction ms generalizing idx tis with
  | nil =>
    simp only [processMedia] at h
    injection h with h2
    subst h2
    exact ⟨[], by simp, by simp, by simp⟩
  | cons m ms ih =>
    rw [processMedia] at h
    by_cases hig : mediumIgnored cfg m
    · rw [if_pos hig] at h
      obtain ⟨blocks, hb1, hb2, hb3⟩ := ih _ _ h
      refine ⟨blocks, ?_, hb2, hb3⟩
      rw [List.filter_cons_of_neg (by simp [hig])]
      exact hb1
    · rw [if_neg hig] at h
      cases hpt : processTracks cfg m.position m.title m.format
          (preSkipCount cfg m) idx (assembledTracks cfg m) with
      | none => simp only [hpt] at h; exact absurd h (by simp)
      | some pr =>
        simp only [hpt] at h
        cases hrec : processMedia cfg pr.2 ms with
        | none => simp only [hrec] at h; exact absurd h (by simp)
        | some rest =>
          simp only [hrec] at h
          injection h with h2
          subst h2
          obtain ⟨blocks, hb1, hb2, hb3⟩ := ih _ _ (by rw [hrec])
          refine ⟨(m, pr.1) :: blocks, ?_, ?_, ?_⟩
          · rw [List.filter_cons_of_pos (by simp [hig])]
            simpa using hb1
          · simp [hb2]
          · intro p hp ti hti
            rcases List.mem_cons.mp hp with rfl | hp2
            · exact processTracks_medium_total cfg m.position m.title m.format
                (preSkipCount cfg m) (assembledTracks cfg m) idx pr.1 pr.2
                (by rw [hpt]) ti hti
            · exact hb3 p hp2 ti hti

theorem album_info_tracks (cfg : Config) (rel : Release) (info : AlbumInfo)
    (h : album_info cfg rel = some info) :
    ∃ tis, processMedia cfg 0 rel.mediumList = some tis ∧ info.tracks = tis := by
  unfold album_info at h
  split at h
  · exact absurd h (by simp)
  · rename_i tis hpm
    split at h
    · exact absurd h (by simp)
    · simp only [] at h
      injection h with h2
      subst h2
      refine ⟨tis, hpm, ?_⟩
      simp [set_date_str_preserves]

/-- C3 is refuted by a one-track medium with a pregap track: the code
computes the medium total before prepending the pregap track, so both
mapped tracks carry medium_total = 1 while the assembled (pregap-prefixed)
track list has 2 entries. -/
theorem C3_counterexample :
    ¬ (∀ (cfg : Config) (rel : Release) (info : AlbumInfo) (ti : TrackInfo),
        album_info cfg rel = some info → ti ∈ info.tracks →
        ∃ m ∈ rel.mediumList,
          ti.medium_total = some (Int.ofNat (assembledTracks cfg m).length)) := by
  intro h
  cases hE : album_info cfgDefault relPregap with
  | none => exact absurd hE (by decide)
  | some info =>
    have h1 : info.tracks.map (fun t => t.medium_total) = [some 1, some 1] := by
      have h0 : (album_info cfgDefault relPregap).map
          (fun i => i.tracks.map fun t => t.medium_total) =
            some [some 1, some 1] := by decide
      rw [hE] at h0
      simpa using h0
    obtain ⟨ti, hmem, hmt⟩ : ∃ ti ∈ info.tracks, ti.medium_total = some 1 := by
      cases hts : info.tracks with
      | nil => rw [hts] at h1; simp at h1
      | cons a l =>
        rw [hts] at h1
        simp only [List.map_cons, List.cons.injEq] at h1
        exact ⟨a, by simp [hts], h1.1⟩
    obtain ⟨m, hm, hcl⟩ := h cfgDefault relPregap info ti hE hmem
    have hm2 : m = mediumPregap := by simpa [relPregap, mkRelease] using hm
    subst hm2
    rw [hmt] at hcl
    revert hcl
    decide

/-- C3 amended (per-medium): the mapped track list decomposes into one
block per non-ignored medium, in medium order, and within each medium's
block every track's medium_total equals the pre-skip length of THAT
medium's track list extended with the data-track list (unless data tracks
are ignored) — NOT counting the pregap track, which is prepended only after
that count is taken. -/
theorem C3_medium_total_preskip (cfg : Config) (rel : Release)
    (info : AlbumInfo) (h : album_info cfg rel = some info) :
    ∃ blocks : List (Medium × List TrackInfo),
      blocks.map Prod.fst =
        rel.mediumList.filter (fun m => !mediumIgnored cfg m) ∧
      info.tracks = (blocks.map Prod.snd).flatten ∧
      ∀ p ∈ blocks, ∀ ti ∈ p.2,
        ti.medium_total = some (Int.ofNat (preSkipCount cfg p.1)) := by
  obtain ⟨tis, hpm, htr⟩ := album_info_tracks cfg rel info h
  obtain ⟨blocks, hb1, hb2, hb3⟩ :=
    processMedia_blocks cfg rel.mediumList 0 tis hpm
  exact ⟨blocks, hb1, by rw [htr]; exact hb2, hb3⟩

theorem C3_medium_total_preskip_witness :
    ∃ blocks : List (Medium × List TrackInfo),
      blocks.map Prod.fst =
        relPregap.mediumList.filter (fun m => !mediumIgnored cfgDefault m) ∧
      ((album_info cfgDefault relPregap).getD blankInfo).tracks =
        (blocks.map Prod.snd).flatten ∧
      ∀ p ∈ blocks, ∀ ti ∈ p.2,
        ti.medium_total = some (Int.ofNat (preSkipCount cfgDefault p.1)) :=
  C3_medium_total_preskip cfgDefault relPregap
    ((album_info cfgDefault relPregap).getD blankInfo) (by decide)

/-- C8: the various-artists boolean is true iff the release's first
top-level artist-credit element's artist id equals the reserved
various-artists identifier, and when true the displayed artist name is the
configured various-artists label regardless of the raw artist name. -/
theorem C8_various_artists_flag (cfg : Config) (rel : Release)
    (info : AlbumInfo) (nm : Option String) (fa : Artist)
    (rest : List CreditElem) (h : album_info cfg rel = some info)
    (hc : rel.artistCredit = CreditElem.artist nm fa :: rest) :
    (info.va = true ↔ fa.id = VARIOUS_ARTISTS_ID) ∧
    (fa.id = VARIOUS_ARTISTS_ID → info.artist = cfg.vaName) := by
  unfold album_info at h
  split at h
  · exact absurd h (by simp)
  · split at h
    · exact absurd h (by simp)
    · rename_i fa2 heq
      rw [hc] at heq
      simp only [headCreditArtist, Option.some.injEq] at heq
      subst heq
      simp only [] at h
      injection h with h2
      subst h2
      refine ⟨?_, fun hid => ?_⟩
      · simp [set_date_str_preserves]
      · simp [set_date_str_preserves, hid]

theorem C8_various_artists_flag_witness :
    ((((album_info cfgDefault relVA).getD blankInfo).va = true ↔
        (plainArtist "Anyone" VARIOUS_ARTISTS_ID).id = VARIOUS_ARTISTS_ID) ∧
      ((plainArtist "Anyone" VARIOUS_ARTISTS_ID).id = VARIOUS_ARTISTS_ID →
        ((album_info cfgDefault relVA).getD blankInfo).artist =
          cfgDefault.vaName)) ∧
    ((album_info cfgDefault relVA).getD blankInfo).va = true :=
  ⟨C8_various_artists_flag cfgDefault relVA
      ((album_info cfgDefault relVA).getD blankInfo) none
      (plainArtist "Anyone" VARIOUS_ARTISTS_ID) [] (by decide) (by decide),
   by decide⟩

/-- C7: with the genre flag enabled, the album mapper merges release-group-
and release-level tag-count pairs into one total keyed by tag name and
renders the names joined by "; " in descending total order with source
iteration order as the stable tie-break; {rock:5, pop:2} + {pop:1, jazz:1}
gives "rock; pop; jazz". -/
theorem C7_genre_merge (cfg : Config) (rel : Release) (info : AlbumInfo)
    (hg : cfg.genres = true) (h : album_info cfg rel = some info) :
    info.genre =
      some (renderGenres (rel.releaseGroup.genreList ++ rel.genreList)) ∧
    (([⟨"rock", 5⟩, ⟨"pop", 2⟩, ⟨"pop", 1⟩, ⟨"jazz", 1⟩] : List GenreItem).foldl
        (fun c g => counterAdd c g.name g.count) [] =
      [("rock", 5), ("pop", 3), ("jazz", 1)]) ∧
    renderGenres [⟨"rock", 5⟩, ⟨"pop", 2⟩, ⟨"pop", 1⟩, ⟨"jazz", 1⟩] =
      "rock; pop; jazz" := by
  refine ⟨?_, by decide, by decide⟩
  unfold album_info at h
  split at h
  · exact absurd h (by simp)
  · split at h
    · exact absurd h (by simp)
    · simp only [] at h
      injection h with h2
      subst h2
      simp [set_date_str_preserves, hg, renderGenres]

theorem C7_genre_merge_witness :
    (((album_info cfgGenres relGenres).getD blankInfo).genre =
        some (renderGenres
          (relGenres.releaseGroup.genreList ++ relGenres.genreList)) ∧
      (([⟨"rock", 5⟩, ⟨"pop", 2⟩, ⟨"pop", 1⟩, ⟨"jazz", 1⟩] : List GenreItem).foldl
          (fun c g => counterAdd c g.name g.count) [] =
        [("rock", 5), ("pop", 3), ("jazz", 1)]) ∧
      renderGenres [⟨"rock", 5⟩, ⟨"pop", 2⟩, ⟨"pop", 1⟩, ⟨"jazz", 1⟩] =
        "rock; pop; jazz") ∧
    ((album_info cfgGenres relGenres).getD blankInfo).genre =
      some "rock; pop; jazz" :=
  ⟨C7_genre_merge cfgGenres relGenres
      ((album_info cfgGenres relGenres).getD blankInfo) rfl (by decide),
   by decide⟩

theorem findSome?_const_none {α β : Type} (ls : List α) :
    ls.findSome? (fun _ => (none : Option β)) = none := by
  induction ls with
  | nil => rfl
  | cons l ls ih => simp [List.findSome?_cons, ih]

theorem localeLoop_findSome (ignored : List String) (langs : List String)
    (as : List Alias) :
    localeLoop ignored langs as =
      langs.findSome? fun locale =>
        (as.filter (aliasMatches ignored locale)).head? := by
  induction langs with
  | nil => simp [localeLoop]
  | cons l ls ih =>
    simp only [localeLoop]
    cases hf : as.filter (aliasMatches ignored l) with
    | nil =>
      have hfind : as.find? (aliasMatches ignored l) = none := by
        rw [← List.filter_head?, hf]; rfl
      simp [List.findSome?_cons, hfind, ih]
    | cons m rest =>
      have hfind : as.find? (aliasMatches ignored l) = some m := by
        rw [← List.filter_head?, hf]; rfl
      simp [List.findSome?_cons, hfind]

/-- C6: the alias resolver considers only locale-tagged aliases; for each
preferred locale in configured order it collects primary, non-ignored
aliases of that locale and returns the first match of the first locale
yielding any, else no preference — so with preference [en, fr], a present
matching English alias is returned over any French alias regardless of
alias-list order. -/
theorem C6_alias_resolution :
    (∀ (cfg : Config) (aliases : List Alias),
      preferred_alias cfg aliases = preferredAliasSpec cfg aliases) ∧
    (∀ (cfg : Config) (aliases : List Alias) (a : Alias),
      cfg.languages = ["en", "fr"] → a ∈ aliases →
      aliasMatches (cfg.ignoredAliasTypes.map String.toLower) "en" a = true →
      ∃ r, preferred_alias cfg aliases = some r ∧
        aliasMatches (cfg.ignoredAliasTypes.map String.toLower) "en" r = true) := by
  have hmain : ∀ (cfg : Config) (aliases : List Alias),
      preferred_alias cfg aliases = preferredAliasSpec cfg aliases := by
    intro cfg aliases
    unfold preferred_alias preferredAliasSpec
    by_cases he : aliases.isEmpty
    · obtain rfl : aliases = [] := by simpa using he
      simp [findSome?_const_none]
    · simp only [he, if_false, localeLoop_findSome]
      simp
  refine ⟨hmain, fun cfg aliases a hl ha hm => ?_⟩
  have hloc : a.locale.isSome := by
    rcases h2 : a.locale with _ | v
    · rw [aliasMatches, h2] at hm; simp at hm
    · rfl
  have hmem : a ∈ (aliases.filter fun x => x.locale.isSome).filter
      (aliasMatches (cfg.ignoredAliasTypes.map String.toLower) "en") := by
    rw [List.mem_filter, List.mem_filter]
    exact ⟨⟨ha, hloc⟩, hm⟩
  cases hfl : (aliases.filter fun x => x.locale.isSome).filter
      (aliasMatches (cfg.ignoredAliasTypes.map String.toLower) "en") with
  | nil => rw [hfl] at hmem; simp at hmem
  | cons r rest =>
    refine ⟨r, ?_, ?_⟩
    · rw [hmain, preferredAliasSpec, hl]
      have hhead : ((aliases.filter fun x => x.locale.isSome).filter
          (aliasMatches (cfg.ignoredAliasTypes.map String.toLower) "en")).head?
            = some r := by rw [hfl]; rfl
      simp only [List.findSome?_cons, hhead]
    · have : r ∈ (aliases.filter fun x => x.locale.isSome).filter
          (aliasMatches (cfg.ignoredAliasTypes.map String.toLower) "en") := by
        rw [hfl]; exact List.mem_cons_self _ _
      exact (List.mem_filter.mp this).2

theorem C6_alias_resolution_witness :
    (preferred_alias cfgEnFr [aliasFr, aliasEn] =
      preferredAliasSpec cfgEnFr [aliasFr, aliasEn]) ∧
    (∃ r, preferred_alias cfgEnFr [aliasFr, aliasEn] = some r ∧
      aliasMatches (cfgEnFr.ignoredAliasTypes.map String.toLower) "en" r
        = true) ∧
    preferred_alias cfgEnFr [aliasFr, aliasEn] = some aliasEn :=
  ⟨C6_alias_resolution.1 cfgEnFr [aliasFr, aliasEn],
   C6_alias_resolution.2 cfgEnFr [aliasFr, aliasEn] aliasEn rfl
     (by decide) (by decide),
   by decide⟩

theorem takeHexRun_chars (hex : Char → Bool) (n : Nat) (cs run rest : List Char)
    (h : takeHexRun hex n cs = some (run, rest)) :
    (∀ c ∈ run, hex c = true) ∧ run.length = n := by
  induction n generalizing cs run rest with
  | zero =>
    simp only [takeHexRun] at h
    injection h with h2
    injection h2 with ha hb
    subst ha
    simp
  | succ n ih =>
    cases cs with
    | nil => simp [takeHexRun] at h
    | cons c cs2 =>
      simp only [takeHexRun] at h
      by_cases hc : hex c
      · rw [if_pos hc] at h
        cases hrec : takeHexRun hex n cs2 with
        | none => rw [hrec] at h; simp at h
        | some p =>
          obtain ⟨r2, rest2⟩ := p
          rw [hrec] at h
          simp only [] at h
          injection h with h2
          injection h2 with ha hb
          subst ha
          obtain ⟨ihc, ihl⟩ := ih cs2 r2 rest2 hrec
          refine ⟨fun x hx => ?_, by simpa using ihl⟩
          rcases List.mem_cons.mp hx with rfl | hx2
          · exact hc
          · exact ihc x hx2
      · rw [if_neg hc] at h; exact absurd h (by simp)

theorem takeHexRun_mono (hexA hexB : Char → Bool)
    (himp : ∀ c, hexA c = true → hexB c = true) (n : Nat)
    (cs run rest : List Char) (h : takeHexRun hexA n cs = some (run, rest)) :
    takeHexRun hexB n cs = some (run, rest) := by
  induction n generalizing cs run rest with
  | zero => simpa [takeHexRun] using h
  | succ n ih =>
    cases cs with
    | nil => simp [takeHexRun] at h
    | cons c cs2 =>
      simp only [takeHexRun] at h ⊢
      by_cases hc : hexA c
      · rw [if_pos hc] at h
        rw [if_pos (himp c hc)]
        cases hrec : takeHexRun hexA n cs2 with
        | none => rw [hrec] at h; simp at h
        | some p =>
          obtain ⟨r2, rest2⟩ := p
          rw [hrec] at h
          rw [ih cs2 r2 rest2 hrec]
          exact h
      · rw [if_neg hc] at h; exact absurd h (by simp)

theorem matchGroups_chars (hex : Char → Bool) (ns : List Nat)
    (cs m : List Char) (h : matchGroups hex ns cs = some m) :
    ∀ c ∈ m, hex c = true ∨ c = '-' := by
  induction ns generalizing cs m with
  | nil =>
    simp only [matchGroups] at h
    injection h with h2
    subst h2
    simp
  | cons n ns ih =>
    simp only [matchGroups] at h
    split at h
    · rename_i cs2
      cases hrun : takeHexRun hex n cs2 with
      | none => rw [hrun] at h; simp at h
      | some p =>
        obtain ⟨run, rest⟩ := p
        rw [hrun] at h
        simp only [] at h
        cases hrec : matchGroups hex ns rest with
        | none => rw [hrec] at h; simp at h
        | some m2 =>
          rw [hrec] at h
          simp only [] at h
          injection h with h2
          subst h2
          intro x hx
          rcases List.mem_cons.mp hx with rfl | hx2
          · exact Or.inr rfl
          · rcases List.mem_append.mp hx2 with hl | hr
            · exact Or.inl ((takeHexRun_chars hex n cs2 run rest hrun).1 x hl)
            · exact ih rest m2 hrec x hr
    · exact absurd h (by simp)

theorem matchGroups_mono (hexA hexB : Char → Bool)
    (himp : ∀ c, hexA c = true → hexB c = true) (ns : List Nat)
    (cs m : List Char) (h : matchGroups hexA ns cs = some m) :
    matchGroups hexB ns cs = some m := by
  induction ns generalizing cs m with
  | nil => simpa [matchGroups] using h
  | cons n ns ih =>
    simp only [matchGroups] at h ⊢
    split at h
    · rename_i cs2
      cases hrun : takeHexRun hexA n cs2 with
      | none => rw [hrun] at h; simp at h
      | some p =>
        obtain ⟨run, rest⟩ := p
        rw [hrun] at h
        simp only [] at h
        rw [takeHexRun_mono hexA hexB himp n cs2 run rest hrun]
        simp only []
        cases hrec : matchGroups hexA ns rest with
        | none => rw [hrec] at h; simp at h
        | some m2 =>
          rw [hrec] at h
          simp only [] at h
          rw [ih rest m2 hrec]
          exact h
    · exact absurd h (by simp)

theorem matchUUIDWith_chars (hex : Char → Bool) (cs m : List Char)
    (h : matchUUIDWith hex cs = some m) :
    (∀ c ∈ m, hex c = true ∨ c = '-') ∧ m ≠ [] := by
  unfold matchUUIDWith at h
  cases hrun : takeHexRun hex 8 cs with
  | none => rw [hrun] at h; simp at h
  | some p =>
    obtain ⟨run, rest⟩ := p
    rw [hrun] at h
    simp only [] at h
    cases hg : matchGroups hex [4, 4, 4, 12] rest with
    | none => rw [hg] at h; simp at h
    | some m2 =>
      rw [hg] at h
      simp only [] at h
      injection h with h2
      subst h2
      obtain ⟨hrc, hrl⟩ := takeHexRun_chars hex 8 cs run rest hrun
      constructor
      · intro x hx
        rcases List.mem_append.mp hx with hl | hr
        · exact Or.inl (hrc x hl)
        · exact matchGroups_chars hex [4, 4, 4, 12] rest m2 hg x hr
      · intro hnil
        have hr0 : run = [] := (List.append_eq_nil.mp hnil).1
        rw [hr0] at hrl
        simp at hrl

theorem matchUUIDWith_mono (hexA hexB : Char → Bool)
    (himp : ∀ c, hexA c = true → hexB c = true) (cs m : List Char)
    (h : matchUUIDWith hexA cs = some m) : matchUUIDWith hexB cs = some m := by
  unfold matchUUIDWith at h ⊢
  cases hrun : takeHexRun hexA 8 cs with
  | none => rw [hrun] at h; simp at h
  | some p =>
    obtain ⟨run, rest⟩ := p
    rw [hrun] at h
    simp only [] at h
    rw [takeHexRun_mono hexA hexB himp 8 cs run rest hrun]
    simp only []
    cases hg : matchGroups hexA [4, 4, 4, 12] rest with
    | none => rw [hg] at h; simp at h
    | some m2 =>
      rw [hg] at h
      simp only [] at h
      rw [matchGroups_mono hexA hexB himp [4, 4, 4, 12] rest m2 hg]
      exact h

theorem searchUUIDWith_elim (hex : Char → Bool) (cs m : List Char)
    (h : searchUUIDWith hex cs = some m) :
    ∃ suffix : List Char, matchUUIDWith hex suffix = some m := by
  induction cs with
  | nil => simp [searchUUIDWith] at h
  | cons c cs2 ih =>
    simp only [searchUUIDWith] at h
    cases hm : matchUUIDWith hex (c :: cs2) with
    | none => rw [hm] at h; exact ih h
    | some m2 =>
      rw [hm] at h
      injection h with h2
      subst h2
      exact ⟨c :: cs2, hm⟩

theorem lower_imp_ci (c : Char) (h : isLowerHex c = true) : isHexCI c = true := by
  simp only [isLowerHex, Bool.or_eq_true, Bool.and_eq_true, decide_eq_true_eq] at h
  simp only [isHexCI, Bool.or_eq_true, Bool.and_eq_true, decide_eq_true_eq]
  tauto

theorem lower_not_upper (c : Char) (h : isLowerHex c = true) :
    isUpperHexLetter c = false := by
  simp only [isLowerHex, Bool.or_eq_true, Bool.and_eq_true, decide_eq_true_eq] at h
  simp only [isUpperHexLetter, Bool.and_eq_false_iff, decide_eq_false_iff_not,
    not_le]
  rcases h with ⟨h1, _⟩ | ⟨_, h2⟩
  · exact Or.inr (lt_of_lt_of_le (by decide : 'F' < 'a') h1)
  · exact Or.inl (lt_of_le_of_lt h2 (by decide : '9' < 'A'))

theorem searchLower_none_of_allUpper (cs : List Char)
    (h : ciMatchesAllUpperAux cs = true) :
    searchUUIDWith isLowerHex cs = none := by
  induction cs with
  | nil => rfl
  | cons c cs2 ih =>
    simp only [ciMatchesAllUpperAux, Bool.and_eq_true] at h
    obtain ⟨h1, h2⟩ := h
    simp only [searchUUIDWith]
    cases hm : matchUUIDWith isLowerHex (c :: cs2) with
    | none => exact ih h2
    | some m =>
      exfalso
      have hci := matchUUIDWith_mono isLowerHex isHexCI lower_imp_ci (c :: cs2) m hm
      rw [hci] at h1
      simp only [] at h1
      obtain ⟨x, hx, hup⟩ := List.any_eq_true.mp h1
      rcases (matchUUIDWith_chars isLowerHex (c :: cs2) m hm).1 x hx with hl | hd
      · rw [lower_not_upper x hl] at hup; exact Bool.false_ne_true hup
      · subst hd; exact absurd hup (by decide)

theorem parse_id_chars (s m : String) (h : parse_id s = some m) :
    (∀ c ∈ m.toList, isLowerHex c = true ∨ c = '-') ∧ m ≠ "" := by
  unfold parse_id at h
  cases hs : searchUUIDWith isLowerHex s.toList with
  | none => rw [hs] at h; simp at h
  | some mcs =>
    rw [hs] at h
    simp only [Option.map_some'] at h
    injection h with h2
    subst h2
    obtain ⟨suffix, hm⟩ := searchUUIDWith_elim isLowerHex s.toList mcs hs
    obtain ⟨hc, hne⟩ := matchUUIDWith_chars isLowerHex suffix mcs hm
    constructor
    · intro c hcm
      exact hc c hcm
    · intro he
      apply hne
      have := congrArg String.toList he
      simpa using this

/-- C2: a by-ID fetch on a string with no UUID-shaped substring returns the
absent result without raising; a "no such entity" response returns the
absent result without raising; any other remote failure raises exactly the
single API-error kind, carrying the operation's verb and the id that
triggered it. -/
theorem C2_not_found_vs_error (afetch : String → Except FetchError Release)
    (tfetch : String → Except FetchError Recording) (cfg : Config)
    (s : String) :
    (parse_id s = none →
      album_for_id afetch cfg s = Except.ok none ∧
      track_for_id tfetch cfg s = Except.ok none) ∧
    (∀ id, parse_id s = some id →
      (afetch id = Except.error FetchError.responseError →
        album_for_id afetch cfg s = Except.ok none) ∧
      (tfetch id = Except.error FetchError.responseError →
        track_for_id tfetch cfg s = Except.ok none) ∧
      (∀ e, afetch id = Except.error e → e ≠ FetchError.responseError →
        album_for_id afetch cfg s =
          Except.error (LookupFailure.api
            (mkAPIError e "get release by ID" id))) ∧
      (∀ e, tfetch id = Except.error e → e ≠ FetchError.responseError →
        track_for_id tfetch cfg s =
          Except.error (LookupFailure.api
            (mkAPIError e "get recording by ID" id)))) := by
  constructor
  · intro hp
    constructor
    · simp [album_for_id, hp]
    · simp [track_for_id, hp]
  · intro id hp
    have hne : id ≠ "" := (parse_id_chars s id hp).2
    refine ⟨fun hf => ?_, fun hf => ?_, fun e hf hner => ?_, fun e hf hner => ?_⟩
    · simp [album_for_id, hp, hne, hf]
    · simp [track_for_id, hp, hne, hf]
    · cases e with
      | responseError => exact absurd rfl hner
      | webServiceError r => simp [album_for_id, hp, hne, hf, mkAPIError]
      | musicBrainzError r => simp [album_for_id, hp, hne, hf, mkAPIError]
    · cases e with
      | responseError => exact absurd rfl hner
      | webServiceError r => simp [track_for_id, hp, hne, hf, mkAPIError]
      | musicBrainzError r => simp [track_for_id, hp, hne, hf, mkAPIError]

theorem C2_not_found_vs_error_witness :
    (album_for_id (fun _ => Except.error FetchError.responseError) cfgDefault
        "no uuid here" = Except.ok none ∧
      track_for_id (fun _ => Except.error FetchError.responseError) cfgDefault
        "no uuid here" = Except.ok none) ∧
    album_for_id (fun _ => Except.error FetchError.responseError) cfgDefault
      uuidStr = Except.ok none ∧
    track_for_id (fun _ => Except.error FetchError.responseError) cfgDefault
      uuidStr = Except.ok none ∧
    album_for_id (fun _ => Except.error (FetchError.musicBrainzError "down"))
        cfgDefault uuidStr =
      Except.error (LookupFailure.api
        (mkAPIError (FetchError.musicBrainzError "down") "get release by ID"
          "89ad4ac3-39f7-470e-963a-56509c546377")) ∧
    track_for_id (fun _ => Except.error (FetchError.musicBrainzError "down"))
        cfgDefault uuidStr =
      Except.error (LookupFailure.api
        (mkAPIError (FetchError.musicBrainzError "down") "get recording by ID"
          "89ad4ac3-39f7-470e-963a-56509c546377")) :=
  ⟨(C2_not_found_vs_error (fun _ => Except.error FetchError.responseError)
      (fun _ => Except.error FetchError.responseError) cfgDefault
      "no uuid here").1 (by decide),
   ((C2_not_found_vs_error (fun _ => Except.error FetchError.responseError)
      (fun _ => Except.error FetchError.responseError) cfgDefault uuidStr).2
      "89ad4ac3-39f7-470e-963a-56509c546377" (by decide)).1 rfl,
   ((C2_not_found_vs_error (fun _ => Except.error FetchError.responseError)
      (fun _ => Except.error FetchError.responseError) cfgDefault uuidStr).2
      "89ad4ac3-39f7-470e-963a-56509c546377" (by decide)).2.1 rfl,
   ((C2_not_found_vs_error
      (fun _ => Except.error (FetchError.musicBrainzError "down"))
      (fun _ => Except.error (FetchError.musicBrainzError "down")) cfgDefault
      uuidStr).2 "89ad4ac3-39f7-470e-963a-56509c546377" (by decide)).2.2.1
      (FetchError.musicBrainzError "down") rfl (by decide),
   ((C2_not_found_vs_error
      (fun _ => Except.error (FetchError.musicBrainzError "down"))
      (fun _ => Except.error (FetchError.musicBrainzError "down")) cfgDefault
      uuidStr).2 "89ad4ac3-39f7-470e-963a-56509c546377" (by decide)).2.2.2
      (FetchError.musicBrainzError "down") rfl (by decide)⟩

/-- C10: the identifier extractor's character class is lowercase-only (the
pattern is compiled without case-insensitivity), so every extracted id
consists of lowercase hex digits and dashes; a string whose only UUID-shaped
substrings use uppercase hex digits yields no identifier, and the by-ID
fetch operations then return the not-found outcome for every possible
remote fetch function (the remote service is never consulted). -/
theorem C10_lowercase_only :
    (∀ (s m : String), parse_id s = some m →
      ∀ c ∈ m.toList, isLowerHex c = true ∨ c = '-') ∧
    (∀ s : String, ciMatchesAllUpper s = true → parse_id s = none) ∧
    (∀ (afetch : String → Except FetchError Release) (cfg : Config),
      album_for_id afetch cfg upperUuidStr = Except.ok none) ∧
    (∀ (tfetch : String → Except FetchError Recording) (cfg : Config),
      track_for_id tfetch cfg upperUuidStr = Except.ok none) := by
  have hnone : ∀ s : String, ciMatchesAllUpper s = true → parse_id s = none := by
    intro s h
    unfold parse_id
    rw [searchLower_none_of_allUpper s.toList h]
    rfl
  refine ⟨fun s m h => (parse_id_chars s m h).1, hnone, ?_, ?_⟩
  · intro afetch cfg
    have hp : parse_id upperUuidStr = none := hnone _ (by decide)
    simp [album_for_id, hp]
  · intro tfetch cfg
    have hp : parse_id upperUuidStr = none := hnone _ (by decide)
    simp [track_for_id, hp]

theorem C10_lowercase_only_witness :
    (∀ c ∈ ("89ad4ac3-39f7-470e-963a-56509c546377" : String).toList,
      isLowerHex c = true ∨ c = '-') ∧
    parse_id upperUuidStr = none ∧
    album_for_id (fun _ => Except.error FetchError.responseError) cfgDefault
      upperUuidStr = Except.ok none ∧
    track_for_id (fun _ => Except.error FetchError.responseError) cfgDefault
      upperUuidStr = Except.ok none :=
  ⟨C10_lowercase_only.1 uuidStr "89ad4ac3-39f7-470e-963a-56509c546377"
      (by decide),
   C10_lowercase_only.2.1 upperUuidStr (by decide),
   C10_lowercase_only.2.2.1 (fun _ => Except.error FetchError.responseError)
      cfgDefault,
   C10_lowercase_only.2.2.2 (fun _ => Except.error FetchError.responseError)
      cfgDefault⟩

theorem optionMapM_of_forall2 {α β : Type} (f : α → Option β) (xs : List α)
    (ys : List β) (h : List.Forall₂ (fun a b => f a = some b) xs ys) :
    optionMapM f xs = some ys := by
  induction h with
  | nil => rfl
  | cons hab hrest ih => simp [optionMapM, hab, ih]

theorem substTrack_of_aligned (lookup : String → Option Recording)
    (t tref : Track) (h : TrackAligned lookup t tref) :
    substTrack lookup t = some tref := by
  obtain ⟨h1, h2, h3, h4, h5, h6, h7⟩ := h
  unfold substTrack
  rw [h7]
  cases t
  cases tref
  simp_all

theorem substMedium_of_aligned (lookup : String → Option Recording)
    (m mref : Medium) (h : MediumAligned lookup m mref) :
    substMedium lookup m = some mref := by
  obtain ⟨h1, h2, h3, h4, h5, hf⟩ := h
  unfold substMedium
  rw [optionMapM_of_forall2 (substTrack lookup) m.trackList mref.trackList
    (hf.imp fun a b hab => substTrack_of_aligned lookup a b hab)]
  cases m
  cases mref
  simp_all

theorem substRelease_of_aligned (lookup : String → Option Recording)
    (r rref : Release) (h : ReleaseAligned lookup r rref) :
    substRelease lookup r = some rref := by
  obtain ⟨h1, h2, h3, h4, h5, h6, h7, h8, h9, h10, h11, h12, h13, hf⟩ := h
  unfold substRelease
  rw [optionMapM_of_forall2 (substMedium lookup) r.mediumList rref.mediumList
    (hf.imp fun a b hab => substMedium_of_aligned lookup a b hab)]
  cases r
  cases rref
  simp_all

/-- C1: for a release whose total track count exceeds 500, the chunked
path — paginated browse-recordings pages of 100 concatenated, a lookup
keyed by recording id, each track's embedded recording substituted — yields
an AlbumInfo (composer/lyricist/remixer/arranger fields included) equal to
the direct path applied to the reference release with identical per-track
relation data (the release whose embedded recordings are the
fully-populated ones). -/
theorem C1_chunked_browse_equivalence (cfg : Config)
    (browse : Nat → List Recording) (rel ref : Release)
    (hgt : trackTotal rel > BROWSE_MAXTRACKS)
    (hal : ReleaseAligned (dictLookup (collectBrowse browse (trackTotal rel)))
      rel ref) :
    album_info_full browse cfg rel = album_info cfg ref := by
  unfold album_info_full
  simp only [] 
  rw [if_pos hgt]
  rw [substRelease_of_aligned
    (dictLookup (collectBrowse browse (trackTotal rel))) rel ref hal]

theorem forall2_replicate {α β : Type} (R : α → β → Prop) (a : α) (b : β)
    (h : R a b) (n : Nat) :
    List.Forall₂ R (List.replicate n a) (List.replicate n b) := by
  induction n with
  | zero => exact List.Forall₂.nil
  | succ n ih => exact List.Forall₂.cons h ih

set_option maxRecDepth 4000 in
theorem C1_chunked_browse_equivalence_witness :
    album_info_full browseBig cfgDefault bigRel =
      album_info cfgDefault bigRel :=
  C1_chunked_browse_equivalence cfgDefault browseBig bigRel bigRel (by decide)
    ⟨rfl, rfl, rfl, rfl, rfl, rfl, rfl, rfl, rfl, rfl, rfl, rfl, rfl,
     List.Forall₂.cons
       ⟨rfl, rfl, rfl, rfl, rfl,
        forall2_replicate (TrackAligned
          (dictLookup (collectBrowse browseBig (trackTotal bigRel))))
          bigTrack bigTrack
          ⟨rfl, rfl, rfl, rfl, rfl, rfl, by decide⟩ 501⟩
       List.Forall₂.nil⟩
